import Mathlib

/-!
Verification of the journey-animation and viewport-framing core of the
around-the-world travel-journal application.

The embedded code comes from the `LeafletMap` component (the map renderer
holding `getCurrentJourneyPath`, `getMapBounds` and the journey-animation
effect), the duplicate `AnimatedJourneyLine` component, and the sample
journey defined in `page.tsx`.  Coordinates (IEEE doubles in the source)
are modelled as rationals, array indices (JS numbers) as integers, and
JS array access / `slice` get explicit total counterparts returning
`Option` / clamped lists.
-/

/-- A location record; only `latitude`/`longitude` take part in the
map logic, the string fields are carried for fidelity. -/
structure Location where
  id : String
  name : String
  city : String
  country : String
  latitude : ℚ
  longitude : ℚ
deriving DecidableEq, Repr, Inhabited

/-- `'ROUND_TRIP' | 'ONE_WAY'` from the `Trip` interface. -/
inductive TripType where
  | ROUND_TRIP
  | ONE_WAY
deriving DecidableEq, Repr, Inhabited

/-- `'PLANE' | 'CAR' | 'TRAIN' | 'BOAT' | 'WALKING'`. -/
inductive Transport where
  | PLANE
  | CAR
  | TRAIN
  | BOAT
  | WALKING
deriving DecidableEq, Repr, Inhabited

/-- The `Trip` interface (fields not read by the embedded logic —
title, dates, notes, order — are carried as plain data). -/
structure Trip where
  id : String
  title : String
  type : TripType
  departureLocation : Location
  arrivalLocation : Location
  transport : Transport
  travelers : List String
  order : ℕ
deriving DecidableEq, Repr, Inhabited

/-- A `[lat, lng]` coordinate pair. -/
abbrev Coord := ℚ × ℚ

/-- JS array indexing `a[i]`: `undefined` (here `none`) on a negative
index or an index past the end. -/
def jsGet (l : List α) (i : ℤ) : Option α :=
  if 0 ≤ i then l.get? i.toNat else none

/-- JS `a.slice(0, e)`: a negative `e` counts from the end of the
array, and the bound is clamped into range. -/
def jsSliceTo (l : List α) (e : ℤ) : List α :=
  if e < 0 then l.take ((l.length : ℤ) + e).toNat else l.take e.toNat

/-- `visibleTrips = trips.slice(0, currentTripIndex + 1)`. -/
def visibleTrips (trips : List Trip) (currentTripIndex : ℤ) : List Trip :=
  jsSliceTo trips (currentTripIndex + 1)

/-- `[loc.latitude, loc.longitude]` as a coordinate pair. -/
def coordOf (loc : Location) : Coord :=
  (loc.latitude, loc.longitude)

/-- `getCurrentJourneyPath` from the `LeafletMap` component: the active
leg's two endpoints, or `[]` when there is no current trip (or, in the
one-way case, no previous trip). -/
def getCurrentJourneyPath (trips : List Trip) (currentTripIndex : ℤ) : List Coord :=
  match jsGet trips currentTripIndex with
  | none => []
  | some currentTripData =>
    if currentTripData.type = TripType.ROUND_TRIP then
      [coordOf currentTripData.departureLocation,
       coordOf currentTripData.arrivalLocation]
    else
      if currentTripIndex = 0 then
        [coordOf currentTripData.departureLocation,
         coordOf currentTripData.arrivalLocation]
      else
        match jsGet (visibleTrips trips currentTripIndex) (currentTripIndex - 1) with
        | none => []
        | some previousTrip =>
          let startLocation :=
            if previousTrip.type = TripType.ROUND_TRIP then
              previousTrip.departureLocation
            else
              previousTrip.arrivalLocation
          [coordOf startLocation, coordOf currentTripData.arrivalLocation]

/-- The `{ center, zoom }` record returned by `getMapBounds`. -/
structure MapView where
  center : Coord
  zoom : ℕ
deriving DecidableEq, Repr

/-- The `let zoom = 8; if (maxDiff > 50) zoom = 3; else if ...` chain
of `getMapBounds`, as a function of the spread `maxDiff`. -/
def zoomFor (maxDiff : ℚ) : ℕ :=
  if maxDiff > 50 then 3
  else if maxDiff > 20 then 4
  else if maxDiff > 10 then 5
  else if maxDiff > 5 then 6
  else if maxDiff > 2 then 7
  else 8

/-- `getMapBounds` from the `LeafletMap` component: default viewport for
an empty visible list, first visible trip's departure at zoom 8 when no
journey path resolves, otherwise midpoint of the leg plus a
spread-derived zoom. -/
def getMapBounds (trips : List Trip) (currentTripIndex : ℤ) : MapView :=
  let visible := visibleTrips trips currentTripIndex
  if visible.length = 0 then
    { center := (39.8283, -98.5795), zoom := 4 }
  else
    let currentJourneyPath := getCurrentJourneyPath trips currentTripIndex
    if currentJourneyPath.length = 0 then
      let firstTrip := visible.headI
      { center := (firstTrip.departureLocation.latitude,
                   firstTrip.departureLocation.longitude),
        zoom := 8 }
    else
      let startCoords := currentJourneyPath.getD 0 (0, 0)
      let endCoords := currentJourneyPath.getD 1 (0, 0)
      let minLat := min startCoords.1 endCoords.1
      let maxLat := max startCoords.1 endCoords.1
      let minLng := min startCoords.2 endCoords.2
      let maxLng := max startCoords.2 endCoords.2
      let centerLat := (minLat + maxLat) / 2
      let centerLng := (minLng + maxLng) / 2
      let latDiff := maxLat - minLat
      let lngDiff := maxLng - minLng
      let maxDiff := max latDiff lngDiff
      { center := (centerLat, centerLng), zoom := zoomFor maxDiff }

/-- `interpolateCoords` (textually identical in the `LeafletMap`
journey-animation effect and in `AnimatedJourneyLine`): componentwise
linear interpolation between two coordinates. -/
def interpolateCoords (startCoords endCoords : Coord) (progress : ℚ) : Coord :=
  let lat := startCoords.1 + (endCoords.1 - startCoords.1) * progress
  let lng := startCoords.2 + (endCoords.2 - startCoords.2) * progress
  (lat, lng)

/-- `animationProgress = Math.min(elapsed / animationDuration, 1)`,
shared by both animation loops. -/
def animationProgressOf (elapsed animationDuration : ℚ) : ℚ :=
  min (elapsed / animationDuration) 1

/-- The data guard of the journey-animation effect,
`currentJourneyPath.length > 1 && currentTrip`: whether an animation
run is started at all for this journey and cursor. -/
def journeyAnimationActive (trips : List Trip) (currentTripIndex : ℤ) : Bool :=
  decide (1 < (getCurrentJourneyPath trips currentTripIndex).length)
    && (jsGet trips currentTripIndex).isSome

namespace LeafletMap

/-- `const animationDuration = 2500` in the journey-animation effect. -/
def animationDuration : ℕ := 2500

/-- The observable state of one run of the journey-animation effect:
which Leaflet layers the run has on the map, their data, and which
callbacks the run has scheduled (`requestAnimationFrame` continuation,
marker-removal `setTimeout` with its delay in ms).  The effect installs
no liveness flag, so the scheduling fields are plain and shared. -/
structure EffectRun where
  polylineOnMap : Bool
  markerOnMap : Bool
  polylinePts : List Coord
  markerPos : Coord
  framePending : Bool
  removalTimerPending : Option ℕ
deriving DecidableEq, Repr

/-- Effect start: polyline created as the zero-length segment
`[startCoords, startCoords]`, marker at `startCoords`, the kick-off
timer for `animate` scheduled, no removal timer yet. -/
def effectStart (startCoords : Coord) : EffectRun :=
  { polylineOnMap := true
    markerOnMap := true
    polylinePts := [startCoords, startCoords]
    markerPos := startCoords
    framePending := true
    removalTimerPending := none }

/-- One call of the `animate` frame callback at `elapsed = Date.now() -
startTime`: recompute progress, set the polyline to `[startCoords,
currentEndCoord]`, move the marker, then either schedule the next frame
(`requestAnimationFrame(animate)`) or schedule the 800 ms marker-removal
timeout.  The body has no liveness check: it runs the same way whether
or not the effect has been cleaned up. -/
def animate (startCoords endCoords : Coord) (elapsed : ℚ) (s : EffectRun) : EffectRun :=
  let animationProgress := animationProgressOf elapsed (animationDuration : ℚ)
  let currentEndCoord := interpolateCoords startCoords endCoords animationProgress
  let s' := { s with polylinePts := [startCoords, currentEndCoord]
                     markerPos := currentEndCoord }
  if animationProgress < 1 then
    { s' with framePending := true }
  else
    { s' with framePending := false, removalTimerPending := some 800 }

/-- The body of the 800 ms `setTimeout`: remove the marker layer (after
an `hasLayer` check); the polyline is not touched. -/
def removalTimerFire (s : EffectRun) : EffectRun :=
  { s with markerOnMap := false, removalTimerPending := none }

/-- The effect's cleanup function: remove the polyline and marker layers
(each behind an `hasLayer` check).  It does not call
`cancelAnimationFrame` or `clearTimeout` and clears no liveness flag, so
the scheduling fields are left untouched. -/
def cleanup (s : EffectRun) : EffectRun :=
  { s with polylineOnMap := false, markerOnMap := false }

end LeafletMap

namespace AnimatedJourneyLine

/-- `const animationDuration = 2500; // 2.5 seconds`. -/
def animationDuration : ℕ := 2500

/-- Observable state of one run of the `useLeafletComponent` hook's
effect, mirroring `LeafletMap.EffectRun`. -/
structure RunState where
  polylineOnMap : Bool
  markerOnMap : Bool
  polylinePts : List Coord
  markerPos : Coord
  framePending : Bool
  removalTimerPending : Option ℕ
deriving DecidableEq, Repr

/-- Effect start: zero-length polyline and marker at `startCoords`,
`animate()` invoked synchronously (modelled as the first frame being
due). -/
def effectStart (startCoords : Coord) : RunState :=
  { polylineOnMap := true
    markerOnMap := true
    polylinePts := [startCoords, startCoords]
    markerPos := startCoords
    framePending := true
    removalTimerPending := none }

/-- One call of this component's `animate`: identical to the
`LeafletMap` one except that the marker-removal timeout is scheduled
with a 500 ms delay. -/
def animate (startCoords endCoords : Coord) (elapsed : ℚ) (s : RunState) : RunState :=
  let animationProgress := animationProgressOf elapsed (animationDuration : ℚ)
  let currentEndCoord := interpolateCoords startCoords endCoords animationProgress
  let s' := { s with polylinePts := [startCoords, currentEndCoord]
                     markerPos := currentEndCoord }
  if animationProgress < 1 then
    { s' with framePending := true }
  else
    { s' with framePending := false, removalTimerPending := some 500 }

/-- The body of the 500 ms `setTimeout`: `map.removeLayer(marker)`; the
polyline is not touched. -/
def removalTimerFire (s : RunState) : RunState :=
  { s with markerOnMap := false, removalTimerPending := none }

end AnimatedJourneyLine

/-- `Math.atan2 y x`, modelled as the argument of the complex number
`x + y*i` (the mathematical two-argument arctangent). -/
noncomputable def atan2 (y x : ℝ) : ℝ :=
  Complex.arg ⟨x, y⟩

/-- `calculateRotation` from the journey-animation effect:
`atan2(deltaLng, deltaLat) * (180 / Math.PI)`. -/
noncomputable def calculateRotation (startCoords endCoords : Coord) : ℝ :=
  let deltaLng := ((endCoords.2 - startCoords.2 : ℚ) : ℝ)
  let deltaLat := ((endCoords.1 - startCoords.1 : ℚ) : ℝ)
  let angle := atan2 deltaLng deltaLat * (180 / Real.pi)
  angle

/-- The transport-emoji marker: its position (`setLatLng` target) and
the rotation baked into its `divIcon` html — `some angle` when the html
carries a `transform: rotate(${rotation}deg)`, `none` when the html
applies no rotation transform. -/
structure TransportMarker where
  pos : Coord
  iconRotation : Option ℝ

/-- The `LeafletMap` marker, `L.marker(startCoords, { icon: L.divIcon({
... rotate(${rotation}deg) ... }) })`: the icon's rotation is
`calculateRotation` of the leg's endpoints, computed once at marker
creation. -/
noncomputable def createTransportMarker (startCoords endCoords : Coord) : TransportMarker :=
  { pos := startCoords, iconRotation := some (calculateRotation startCoords endCoords) }

namespace AnimatedJourneyLine

/-- The `AnimatedJourneyLine` marker, `L.marker(startCoords, { icon:
L.divIcon({ ... }) })`: its `divIcon` html carries only font styling and
a `translateY` bounce keyframe — this component computes no bearing and
applies no rotation transform. -/
def createMarker (startCoords : Coord) : TransportMarker :=
  { pos := startCoords, iconRotation := none }

end AnimatedJourneyLine

/-- `marker.setLatLng(currentEndCoord)`: the only marker operation the
frame callback performs; it moves the marker and leaves its icon (and
hence its rotation) unchanged. -/
def markerSetLatLng (m : TransportMarker) (p : Coord) : TransportMarker :=
  { m with pos := p }

/-- The marker after a whole animation run: the per-frame positions are
applied by successive `setLatLng` calls. -/
noncomputable def markerAfterFrames (m : TransportMarker) (positions : List Coord) :
    TransportMarker :=
  positions.foldl markerSetLatLng m

/-- `sampleTrips[0]` from `page.tsx`: the Vegas Weekend round trip,
Los Angeles ↔ Las Vegas. -/
def tripVegasWeekend : Trip :=
  { id := "1"
    title := "Vegas Weekend"
    type := TripType.ROUND_TRIP
    departureLocation :=
      { id := "1", name := "Los Angeles", city := "Los Angeles"
        country := "United States"
        latitude := 34.0522, longitude := -118.2437 }
    arrivalLocation :=
      { id := "2", name := "Las Vegas", city := "Las Vegas"
        country := "United States"
        latitude := 36.1699, longitude := -115.1398 }
    transport := Transport.PLANE
    travelers := ["You", "Celia"]
    order := 1 }

/-- `sampleTrips[1]` from `page.tsx`: the Thanksgiving one-way trip,
Los Angeles → Houston. -/
def tripThanksgivingHouston : Trip :=
  { id := "2"
    title := "Thanksgiving in Houston"
    type := TripType.ONE_WAY
    departureLocation :=
      { id := "1", name := "Los Angeles", city := "Los Angeles"
        country := "United States"
        latitude := 34.0522, longitude := -118.2437 }
    arrivalLocation :=
      { id := "3", name := "Houston", city := "Houston"
        country := "United States"
        latitude := 29.7604, longitude := -95.3698 }
    transport := Transport.PLANE
    travelers := ["You", "Celia"]
    order := 2 }

/-- The `sampleTrips` journey from `page.tsx`. -/
def sampleTrips : List Trip :=
  [tripVegasWeekend, tripThanksgivingHouston]


/-! ### Helper lemmas about the JS array embeddings -/

theorem jsGet_some_bounds {α : Type} {l : List α} {i : ℤ} {a : α}
    (h : jsGet l i = some a) : 0 ≤ i ∧ i.toNat < l.length := by
  unfold jsGet at h
  by_cases h0 : 0 ≤ i
  · rw [if_pos h0] at h
    obtain ⟨hlt, -⟩ := List.get?_eq_some.mp h
    exact ⟨h0, hlt⟩
  · rw [if_neg h0] at h
    cases h

theorem jsGet_visibleTrips_prev (trips : List Trip) (i : ℤ) (h0 : 0 < i) :
    jsGet (visibleTrips trips i) (i - 1) = jsGet trips (i - 1) := by
  unfold visibleTrips jsSliceTo jsGet
  rw [if_neg (by omega : ¬ i + 1 < 0), if_pos (by omega : (0:ℤ) ≤ i - 1),
    if_pos (by omega : (0:ℤ) ≤ i - 1)]
  exact List.get?_take (by omega)

theorem getCurrentJourneyPath_eq_nil_of_jsGet_none {trips : List Trip} {i : ℤ}
    (h : jsGet trips i = none) : getCurrentJourneyPath trips i = [] := by
  unfold getCurrentJourneyPath
  rw [h]

theorem exists_jsGet_of_path_ne_nil {trips : List Trip} {i : ℤ}
    (h : getCurrentJourneyPath trips i ≠ []) : ∃ t, jsGet trips i = some t := by
  cases hj : jsGet trips i with
  | none => exact absurd (getCurrentJourneyPath_eq_nil_of_jsGet_none hj) h
  | some t => exact ⟨t, rfl⟩

theorem visibleTrips_length_ne_zero {trips : List Trip} {i : ℤ}
    (hne : trips ≠ []) (h0 : 0 ≤ i) : (visibleTrips trips i).length ≠ 0 := by
  unfold visibleTrips jsSliceTo
  rw [if_neg (by omega : ¬ i + 1 < 0), List.length_take]
  have : 0 < trips.length := List.length_pos.mpr hne
  omega

theorem visibleTrips_headI {trips : List Trip} {i : ℤ}
    (hne : trips ≠ []) (h0 : 0 ≤ i) : (visibleTrips trips i).headI = trips.headI := by
  unfold visibleTrips jsSliceTo
  rw [if_neg (by omega : ¬ i + 1 < 0)]
  cases trips with
  | nil => exact absurd rfl hne
  | cons t ts =>
    have : (i + 1).toNat = (i.toNat) + 1 := by omega
    rw [this, List.take_succ_cons]
    rfl

/-! ### Claim theorems -/

/-- C1 (leg resolution): for an in-range cursor (`jsGet` succeeds), a
round trip or cursor 0 gives (departure, arrival) of the current trip;
otherwise (one-way, cursor > 0) the leg starts at the previous trip's
arrival when the previous trip is one-way and at its departure when it
is a round trip, and ends at the current trip's arrival. -/
theorem C1_leg_resolution (trips : List Trip) (currentTripIndex : ℤ) (t : Trip)
    (ht : jsGet trips currentTripIndex = some t) :
    ((t.type = TripType.ROUND_TRIP ∨ currentTripIndex = 0) →
      getCurrentJourneyPath trips currentTripIndex =
        [coordOf t.departureLocation, coordOf t.arrivalLocation]) ∧
    (t.type = TripType.ONE_WAY → currentTripIndex ≠ 0 →
      ∀ p : Trip, jsGet trips (currentTripIndex - 1) = some p →
        getCurrentJourneyPath trips currentTripIndex =
          [coordOf (if p.type = TripType.ONE_WAY then p.arrivalLocation
                    else p.departureLocation),
           coordOf t.arrivalLocation]) := by
  constructor
  · rintro (hrt | h0)
    · simp [getCurrentJourneyPath, ht, hrt]
    · subst h0
      cases htype : t.type <;> simp [getCurrentJourneyPath, ht, htype]
  · intro how hne p hp
    have hpos : 0 < currentTripIndex := by
      have := (jsGet_some_bounds ht).1
      omega
    have hprev := jsGet_visibleTrips_prev trips currentTripIndex hpos
    cases hptype : p.type <;>
      simp [getCurrentJourneyPath, ht, how, hne, hprev, hp, hptype]

/-- C1 witness: the sample journey at cursor 1 (one-way trip after a
round trip) resolves to (previous trip's departure, current trip's
arrival). -/
theorem C1_leg_resolution_witness :
    getCurrentJourneyPath sampleTrips 1 =
      [coordOf (if tripVegasWeekend.type = TripType.ONE_WAY then
          tripVegasWeekend.arrivalLocation else tripVegasWeekend.departureLocation),
       coordOf tripThanksgivingHouston.arrivalLocation] :=
  (C1_leg_resolution sampleTrips 1 tripThanksgivingHouston rfl).2 rfl
    (by decide) tripVegasWeekend rfl

/-- C2 (viewport framing): empty journey gives the fixed default view;
when a leg `[A, B]` is resolved the center is the coordinate-wise
arithmetic mean of the endpoints and the zoom is `zoomFor` of
`max |latA - latB| |lngA - lngB|`, whose strict thresholds send
boundary spreads to the finer (larger) zoom. -/
theorem C2_viewport_framing :
    (∀ currentTripIndex : ℤ,
      getMapBounds [] currentTripIndex = { center := (39.8283, -98.5795), zoom := 4 }) ∧
    (∀ (trips : List Trip) (currentTripIndex : ℤ) (A B : Coord),
      getCurrentJourneyPath trips currentTripIndex = [A, B] →
      getMapBounds trips currentTripIndex =
        { center := ((A.1 + B.1) / 2, (A.2 + B.2) / 2),
          zoom := zoomFor (max |A.1 - B.1| |A.2 - B.2|) }) ∧
    (∀ s : ℚ,
      (50 < s → zoomFor s = 3) ∧
      (20 < s → s ≤ 50 → zoomFor s = 4) ∧
      (10 < s → s ≤ 20 → zoomFor s = 5) ∧
      (5 < s → s ≤ 10 → zoomFor s = 6) ∧
      (2 < s → s ≤ 5 → zoomFor s = 7) ∧
      (s ≤ 2 → zoomFor s = 8)) ∧
    (zoomFor 50 = 4 ∧ zoomFor 20 = 5 ∧ zoomFor 10 = 6 ∧
     zoomFor 5 = 7 ∧ zoomFor 2 = 8) := by
  refine ⟨?_, ?_, ?_, ?_⟩
  · intro i
    simp [getMapBounds, visibleTrips, jsSliceTo]
  · intro trips i A B h
    have hne : getCurrentJourneyPath trips i ≠ [] := by
      rw [h]; exact List.cons_ne_nil _ _
    obtain ⟨t, ht⟩ := exists_jsGet_of_path_ne_nil hne
    obtain ⟨h0, hlt⟩ := jsGet_some_bounds ht
    have htne : trips ≠ [] := by
      intro hnil
      rw [hnil] at hlt
      simp at hlt
    have hvis : ¬ (visibleTrips trips i).length = 0 :=
      visibleTrips_length_ne_zero htne h0
    simp only [getMapBounds, h]
    rw [if_neg hvis, if_neg (by simp : ¬ (([A, B] : List Coord).length = 0))]
    simp only [List.getD_cons_zero, List.getD_cons_succ]
    rw [MapView.mk.injEq, Prod.mk.injEq]
    refine ⟨⟨?_, ?_⟩, ?_⟩
    · rw [min_add_max]
    · rw [min_add_max]
    · rw [max_sub_min_eq_abs, max_sub_min_eq_abs,
        abs_sub_comm A.1 B.1, abs_sub_comm A.2 B.2]
  · intro s
    refine ⟨?_, ?_, ?_, ?_, ?_, ?_⟩ <;>
      (intros; unfold zoomFor; split_ifs <;> first | rfl | (exfalso; linarith))
  · refine ⟨?_, ?_, ?_, ?_, ?_⟩ <;> norm_num [zoomFor]

/-- C2 witness: the sample journey at cursor 1 resolves the leg
LA → Houston, and the viewport is the mean of those endpoints with the
spread-derived zoom. -/
theorem C2_viewport_framing_witness :
    getMapBounds sampleTrips 1 =
      { center := (((34.0522 : ℚ) + 29.7604) / 2, ((-118.2437 : ℚ) + -95.3698) / 2),
        zoom := zoomFor (max |(34.0522 : ℚ) - 29.7604| |(-118.2437 : ℚ) - -95.3698|) } :=
  C2_viewport_framing.2.1 sampleTrips 1 (34.0522, -118.2437) (29.7604, -95.3698) rfl

/-- C4 (zoom monotonicity): `zoomFor` is non-increasing on non-negative
spreads, with the listed concrete values. -/
theorem C4_zoom_monotone :
    (∀ s1 s2 : ℚ, 0 ≤ s1 → s1 < s2 → zoomFor s2 ≤ zoomFor s1) ∧
    zoomFor 0 = 8 ∧ zoomFor 3 = 7 ∧ zoomFor 6 = 6 ∧ zoomFor 15 = 5 ∧
    zoomFor 25 = 4 ∧ zoomFor 60 = 3 := by
  refine ⟨?_, ?_, ?_, ?_, ?_, ?_, ?_⟩
  · intro s1 s2 _ hlt
    unfold zoomFor
    split_ifs <;> first | decide | (exfalso; linarith)
  all_goals norm_num [zoomFor]

/-- C4 witness: monotonicity applied at the concrete pair 1 < 3. -/
theorem C4_zoom_monotone_witness : zoomFor 3 ≤ zoomFor 1 :=
  C4_zoom_monotone.1 1 3 (by norm_num) (by norm_num)

theorem interpolateCoords_zero (startCoords endCoords : Coord) :
    interpolateCoords startCoords endCoords 0 = startCoords := by
  simp [interpolateCoords]

theorem interpolateCoords_one (startCoords endCoords : Coord) :
    interpolateCoords startCoords endCoords 1 = endCoords := by
  unfold interpolateCoords
  rw [Prod.ext_iff]
  constructor <;> (dsimp only) <;> ring

/-- C7 (interpolation endpoints): the position is the componentwise
linear interpolation `start + (end - start) * progress`; the progress
computed by the frame callback stays in `[0, 1]` for non-negative
elapsed time; at progress 0 the position is exactly the start and at
progress 1 exactly the end. -/
theorem C7_interpolation_endpoints (startCoords endCoords : Coord) :
    interpolateCoords startCoords endCoords 0 = startCoords ∧
    interpolateCoords startCoords endCoords 1 = endCoords ∧
    (∀ progress : ℚ,
      interpolateCoords startCoords endCoords progress =
        (startCoords.1 + (endCoords.1 - startCoords.1) * progress,
         startCoords.2 + (endCoords.2 - startCoords.2) * progress)) ∧
    (∀ elapsed duration : ℚ, 0 ≤ elapsed → 0 < duration →
      0 ≤ animationProgressOf elapsed duration ∧
      animationProgressOf elapsed duration ≤ 1) :=
  ⟨interpolateCoords_zero _ _, interpolateCoords_one _ _, fun _ => rfl,
   fun _ _ he hd =>
     ⟨le_min (div_nonneg he hd.le) zero_le_one, min_le_right _ _⟩⟩

/-- C7 witness: concrete elapsed time 100 ms of the 2500 ms duration
keeps the progress inside `[0, 1]`. -/
theorem C7_interpolation_endpoints_witness :
    (0 : ℚ) ≤ 100 ∧ (0 : ℚ) < 2500 ∧
    0 ≤ animationProgressOf 100 2500 ∧ animationProgressOf 100 2500 ≤ 1 :=
  ⟨by norm_num, by norm_num,
   (C7_interpolation_endpoints (34.0522, -118.2437) (36.1699, -115.1398)).2.2.2
     100 2500 (by norm_num) (by norm_num)⟩

theorem markerAfterFrames_iconRotation (m : TransportMarker) (positions : List Coord) :
    (markerAfterFrames m positions).iconRotation = m.iconRotation := by
  induction positions generalizing m with
  | nil => rfl
  | cons p ps ih =>
    show (markerAfterFrames (markerSetLatLng m p) ps).iconRotation = _
    rw [ih]
    rfl

/-- C8 counterexample: for the concrete leg LA → Vegas, the marker the
`AnimatedJourneyLine` component creates carries no orientation angle at
all — its icon rotation is `none`, not the atan2 bearing of the leg —
so the claim fails for that cited component. -/
theorem C8_bearing_counterexample :
    (AnimatedJourneyLine.createMarker (34.0522, -118.2437)).iconRotation = none ∧
    (AnimatedJourneyLine.createMarker (34.0522, -118.2437)).iconRotation ≠
      some (calculateRotation (34.0522, -118.2437) (36.1699, -115.1398)) :=
  ⟨rfl, by simp [AnimatedJourneyLine.createMarker]⟩

/-- C8 (bearing, amended): in the `LeafletMap` component the marker's
icon rotation is `atan2(deltaLng, deltaLat) * 180 / pi`, computed once
from the leg's endpoints at marker creation, and no sequence of
per-frame `setLatLng` updates changes it; the duplicate
`AnimatedJourneyLine` component computes no bearing and applies no
rotation to its marker, at creation or at any later frame. -/
theorem C8_bearing_constant (startCoords endCoords : Coord) (positions : List Coord) :
    calculateRotation startCoords endCoords =
      atan2 ((endCoords.2 - startCoords.2 : ℚ) : ℝ)
        ((endCoords.1 - startCoords.1 : ℚ) : ℝ) * (180 / Real.pi) ∧
    (createTransportMarker startCoords endCoords).iconRotation =
      some (calculateRotation startCoords endCoords) ∧
    (markerAfterFrames (createTransportMarker startCoords endCoords)
        positions).iconRotation =
      some (calculateRotation startCoords endCoords) ∧
    (AnimatedJourneyLine.createMarker startCoords).iconRotation = none ∧
    (markerAfterFrames (AnimatedJourneyLine.createMarker startCoords)
        positions).iconRotation = none := by
  refine ⟨rfl, rfl, ?_, rfl, ?_⟩
  · rw [markerAfterFrames_iconRotation]
    rfl
  · rw [markerAfterFrames_iconRotation]
    rfl

theorem animationProgressOf_complete {elapsed : ℚ}
    (h : (2500 : ℚ) ≤ elapsed) : animationProgressOf elapsed 2500 = 1 := by
  unfold animationProgressOf
  exact min_eq_right ((one_le_div (by norm_num)).mpr h)

/-- C6 counterexample: run to completion (`elapsed = animationDuration`),
the duplicate `AnimatedJourneyLine` component schedules the marker
removal with a 500 ms delay, not the claimed 800 ms. -/
theorem C6_settling_counterexample :
    (AnimatedJourneyLine.animate (34.0522, -118.2437) (36.1699, -115.1398) 2500
        (AnimatedJourneyLine.effectStart (34.0522, -118.2437))).removalTimerPending =
      some 500 ∧ (500 : ℕ) ≠ 800 := by
  have hp := animationProgressOf_complete (le_refl (2500 : ℚ))
  have hd : ((AnimatedJourneyLine.animationDuration : ℕ) : ℚ) = 2500 := by
    norm_num [AnimatedJourneyLine.animationDuration]
  constructor
  · simp only [AnimatedJourneyLine.animate, hd, hp, lt_self_iff_false, if_false]
  · decide

/-- C6 (settling, amended): once progress reaches 1 (elapsed at least
the 2500 ms duration), a frame callback draws the full segment, stops
scheduling frames and schedules the marker-removal timeout — with an
800 ms delay in the `LeafletMap` component and a 500 ms delay in the
duplicate `AnimatedJourneyLine` component; firing that timeout removes
the transient marker and leaves the drawn polyline in place. -/
theorem C6_settling (startCoords endCoords : Coord) (elapsed : ℚ)
    (s : LeafletMap.EffectRun) (r : AnimatedJourneyLine.RunState)
    (h : ((LeafletMap.animationDuration : ℕ) : ℚ) ≤ elapsed) :
    LeafletMap.animate startCoords endCoords elapsed s =
      { s with polylinePts := [startCoords, endCoords]
               markerPos := endCoords
               framePending := false
               removalTimerPending := some 800 } ∧
    (∀ u : LeafletMap.EffectRun,
      (LeafletMap.removalTimerFire u).markerOnMap = false ∧
      (LeafletMap.removalTimerFire u).polylineOnMap = u.polylineOnMap ∧
      (LeafletMap.removalTimerFire u).polylinePts = u.polylinePts) ∧
    AnimatedJourneyLine.animate startCoords endCoords elapsed r =
      { r with polylinePts := [startCoords, endCoords]
               markerPos := endCoords
               framePending := false
               removalTimerPending := some 500 } := by
  have hdL : ((LeafletMap.animationDuration : ℕ) : ℚ) = 2500 := by
    norm_num [LeafletMap.animationDuration]
  have hdA : ((AnimatedJourneyLine.animationDuration : ℕ) : ℚ) = 2500 := by
    norm_num [AnimatedJourneyLine.animationDuration]
  have hp := animationProgressOf_complete (hdL ▸ h)
  refine ⟨?_, fun u => ⟨rfl, rfl, rfl⟩, ?_⟩
  · simp only [LeafletMap.animate, hdL, hp, lt_self_iff_false, if_false,
      interpolateCoords_one]
  · simp only [AnimatedJourneyLine.animate, hdA, hp, lt_self_iff_false, if_false,
      interpolateCoords_one]

/-- C6 witness: the amended settling behaviour at a concrete completed
run (elapsed 3000 ms ≥ 2500 ms) from (1, 2) to (3, 4). -/
theorem C6_settling_witness :
    LeafletMap.animate (1, 2) (3, 4) 3000 (LeafletMap.effectStart (1, 2)) =
      { LeafletMap.effectStart (1, 2) with
          polylinePts := [((1 : ℚ), (2 : ℚ)), ((3 : ℚ), (4 : ℚ))]
          markerPos := ((3 : ℚ), (4 : ℚ))
          framePending := false
          removalTimerPending := some 800 } ∧
    AnimatedJourneyLine.animate (1, 2) (3, 4) 3000
        (AnimatedJourneyLine.effectStart (1, 2)) =
      { AnimatedJourneyLine.effectStart (1, 2) with
          polylinePts := [((1 : ℚ), (2 : ℚ)), ((3 : ℚ), (4 : ℚ))]
          markerPos := ((3 : ℚ), (4 : ℚ))
          framePending := false
          removalTimerPending := some 500 } :=
  ⟨(C6_settling (1, 2) (3, 4) 3000 (LeafletMap.effectStart (1, 2))
      (AnimatedJourneyLine.effectStart (1, 2))
      (by norm_num [LeafletMap.animationDuration])).1,
   (C6_settling (1, 2) (3, 4) 3000 (LeafletMap.effectStart (1, 2))
      (AnimatedJourneyLine.effectStart (1, 2))
      (by norm_num [LeafletMap.animationDuration])).2.2⟩

/-- C3 (cancellation, code bug): a concrete run of the `LeafletMap`
journey-animation effect in which the cursor moves mid-flight.  At
elapsed 1000 ms the frame callback has rescheduled itself; the effect's
cleanup removes the polyline and marker layers but — contrary to the
claim and the design requirement — cancels neither the pending
`requestAnimationFrame` callback nor any timer and installs no liveness
flag, so after cleanup the frame callback is still pending, and when the
stale callback later runs to completion it still schedules the 800 ms
removal timeout. -/
theorem C3_cancellation_not_implemented :
    (LeafletMap.animate (34.0522, -118.2437) (36.1699, -115.1398) 1000
        (LeafletMap.effectStart (34.0522, -118.2437))).framePending = true ∧
    (LeafletMap.cleanup (LeafletMap.animate (34.0522, -118.2437) (36.1699, -115.1398)
        1000 (LeafletMap.effectStart (34.0522, -118.2437)))).framePending = true ∧
    (LeafletMap.cleanup (LeafletMap.animate (34.0522, -118.2437) (36.1699, -115.1398)
        1000 (LeafletMap.effectStart (34.0522, -118.2437)))).polylineOnMap = false ∧
    (LeafletMap.cleanup (LeafletMap.animate (34.0522, -118.2437) (36.1699, -115.1398)
        1000 (LeafletMap.effectStart (34.0522, -118.2437)))).markerOnMap = false ∧
    (LeafletMap.animate (34.0522, -118.2437) (36.1699, -115.1398) 2500
        (LeafletMap.cleanup (LeafletMap.animate (34.0522, -118.2437) (36.1699, -115.1398)
          1000 (LeafletMap.effectStart (34.0522, -118.2437))))).removalTimerPending =
      some 800 := by
  have hdL : ((LeafletMap.animationDuration : ℕ) : ℚ) = 2500 := by
    norm_num [LeafletMap.animationDuration]
  have hmid : animationProgressOf 1000 2500 = 2 / 5 := by
    unfold animationProgressOf
    rw [min_eq_left (by norm_num)]
    norm_num
  have hp := animationProgressOf_complete (le_refl (2500 : ℚ))
  refine ⟨?_, ?_, ?_, ?_, ?_⟩ <;>
    simp only [LeafletMap.animate, LeafletMap.cleanup, hdL, hmid, hp,
      lt_self_iff_false, if_false, if_pos (by norm_num : (2 : ℚ) / 5 < 1)]

theorem sample_bounds_at_one :
    getMapBounds sampleTrips 1 = { center := (31.9063, -106.80675), zoom := 4 } := by
  norm_num [getMapBounds, getCurrentJourneyPath, visibleTrips, jsSliceTo, jsGet,
    sampleTrips, tripVegasWeekend, tripThanksgivingHouston, coordOf,
    min_def, max_def, zoomFor]

/-- C5 counterexample: the claimed approximate midpoint (32.39, −106.96)
is wrong — the computed viewport center for the sample journey at
cursor 1 is (31.9063, −106.80675), which is not within 0.1 of the
claimed values in either coordinate. -/
theorem C5_midpoint_counterexample :
    ¬ (|(getMapBounds sampleTrips 1).center.1 - 32.39| ≤ 1 / 10 ∧
       |(getMapBounds sampleTrips 1).center.2 - (-106.96)| ≤ 1 / 10) := by
  rw [sample_bounds_at_one]
  norm_num [abs_le]

/-- C5 (end-to-end example, amended): for the sample journey at
cursor 1 the leg runs from Los Angeles (the round trip's departure) to
Houston; the viewport midpoint is exactly (31.9063, −106.80675)
(≈ (31.91, −106.81)); the spread is
max(|34.0522−29.7604|, |−118.2437−(−95.3698)|) = 22.8739 ≈ 22.87,
giving zoom 4. -/
theorem C5_example_end_to_end :
    getCurrentJourneyPath sampleTrips 1 =
      [coordOf tripVegasWeekend.departureLocation,
       coordOf tripThanksgivingHouston.arrivalLocation] ∧
    getCurrentJourneyPath sampleTrips 1 =
      [(34.0522, -118.2437), (29.7604, -95.3698)] ∧
    getMapBounds sampleTrips 1 = { center := (31.9063, -106.80675), zoom := 4 } ∧
    max |(34.0522 : ℚ) - 29.7604| |(-118.2437 : ℚ) - (-95.3698)| = 22.8739 ∧
    zoomFor 22.8739 = 4 := by
  have h1 : |(34.0522 : ℚ) - 29.7604| = 4.2918 := by
    rw [abs_of_nonneg] <;> norm_num
  have h2 : |(-118.2437 : ℚ) - (-95.3698)| = 22.8739 := by
    rw [abs_of_nonpos] <;> norm_num
  refine ⟨rfl, rfl, sample_bounds_at_one, ?_, ?_⟩
  · rw [h1, h2, max_eq_right (by norm_num)]
  · norm_num [zoomFor]

theorem getMapBounds_no_path (trips : List Trip) (currentTripIndex : ℤ)
    (hne : trips ≠ []) (h0 : 0 ≤ currentTripIndex)
    (hpath : getCurrentJourneyPath trips currentTripIndex = []) :
    getMapBounds trips currentTripIndex =
      { center := (trips.headI.departureLocation.latitude,
                   trips.headI.departureLocation.longitude),
        zoom := 8 } := by
  have hvis := visibleTrips_length_ne_zero hne h0
  simp only [getMapBounds, hpath]
  rw [if_neg hvis, if_pos List.length_nil, visibleTrips_headI hne h0]

/-- C9 (safe fallbacks): leg resolution and viewport computation are
total — an out-of-range cursor resolves to the empty leg, an empty leg
deactivates the animation effect (no-op), and a non-empty journey with
a visible trip but no resolvable leg is framed on the first visible
trip's departure point at zoom 8. -/
theorem C9_safe_fallbacks (trips : List Trip) (currentTripIndex : ℤ) :
    ((currentTripIndex < 0 ∨ (trips.length : ℤ) ≤ currentTripIndex) →
      getCurrentJourneyPath trips currentTripIndex = []) ∧
    (getCurrentJourneyPath trips currentTripIndex = [] →
      journeyAnimationActive trips currentTripIndex = false) ∧
    (trips ≠ [] → 0 ≤ currentTripIndex →
      getCurrentJourneyPath trips currentTripIndex = [] →
      getMapBounds trips currentTripIndex =
        { center := (trips.headI.departureLocation.latitude,
                     trips.headI.departureLocation.longitude),
          zoom := 8 }) := by
  refine ⟨?_, ?_, getMapBounds_no_path trips currentTripIndex⟩
  · intro h
    apply getCurrentJourneyPath_eq_nil_of_jsGet_none
    unfold jsGet
    rcases h with h | h
    · rw [if_neg (by omega)]
    · by_cases h0 : 0 ≤ currentTripIndex
      · rw [if_pos h0]
        exact List.get?_eq_none.mpr (by omega)
      · rw [if_neg h0]
  · intro h
    unfold journeyAnimationActive
    rw [h]
    simp

/-- C9 witness: the sample journey with the out-of-range cursor 5. -/
theorem C9_safe_fallbacks_witness :
    getCurrentJourneyPath sampleTrips 5 = [] ∧
    journeyAnimationActive sampleTrips 5 = false ∧
    getMapBounds sampleTrips 5 = { center := (34.0522, -118.2437), zoom := 8 } := by
  obtain ⟨h1, h2, h3⟩ := C9_safe_fallbacks sampleTrips 5
  have hp : getCurrentJourneyPath sampleTrips 5 = [] := h1 (Or.inr (by decide))
  exact ⟨hp, h2 hp, h3 (by decide) (by decide) hp⟩

theorem zoomFor_mem_range (s : ℚ) : 3 ≤ zoomFor s ∧ zoomFor s ≤ 8 := by
  unfold zoomFor
  split_ifs <;> omega

theorem getMapBounds_zoom_cases (trips : List Trip) (currentTripIndex : ℤ) :
    (getMapBounds trips currentTripIndex).zoom = 4 ∨
    (getMapBounds trips currentTripIndex).zoom = 8 ∨
    ∃ q : ℚ, (getMapBounds trips currentTripIndex).zoom = zoomFor q := by
  unfold getMapBounds
  dsimp only
  split_ifs
  · exact Or.inl rfl
  · exact Or.inr (Or.inl rfl)
  · exact Or.inr (Or.inr ⟨_, rfl⟩)

/-- C10 (zoom range invariant): every viewport's zoom is an integer in
[3, 8]; the empty-journey default is 4, the no-resolvable-leg fallback
is 8, and the spread thresholds only produce values in [3, 8]. -/
theorem C10_zoom_range (trips : List Trip) (currentTripIndex : ℤ) (s : ℚ) :
    3 ≤ (getMapBounds trips currentTripIndex).zoom ∧
    (getMapBounds trips currentTripIndex).zoom ≤ 8 ∧
    (getMapBounds [] currentTripIndex).zoom = 4 ∧
    3 ≤ zoomFor s ∧ zoomFor s ≤ 8 ∧
    (trips ≠ [] → 0 ≤ currentTripIndex →
      getCurrentJourneyPath trips currentTripIndex = [] →
      (getMapBounds trips currentTripIndex).zoom = 8) := by
  have hb : 3 ≤ (getMapBounds trips currentTripIndex).zoom ∧
      (getMapBounds trips currentTripIndex).zoom ≤ 8 := by
    rcases getMapBounds_zoom_cases trips currentTripIndex with h | h | ⟨q, h⟩ <;>
      rw [h]
    · exact ⟨by norm_num, by norm_num⟩
    · exact ⟨by norm_num, by norm_num⟩
    · exact zoomFor_mem_range q
  refine ⟨hb.1, hb.2, ?_, (zoomFor_mem_range s).1, (zoomFor_mem_range s).2, ?_⟩
  · simp [getMapBounds, visibleTrips, jsSliceTo]
  · intro hne h0 hpath
    rw [getMapBounds_no_path trips currentTripIndex hne h0 hpath]

/-- C10 witness: the no-resolvable-leg fallback zoom at the concrete
out-of-range cursor 5 of the sample journey. -/
theorem C10_zoom_range_witness :
    (getMapBounds sampleTrips 5).zoom = 8 :=
  (C10_zoom_range sampleTrips 5 0).2.2.2.2.2 (by decide) (by decide) rfl
